import Mathlib

set_option maxHeartbeats 1000000

/-!
Shallow embedding of the Azurite blob-service request handlers
(`ServiceHandler`, `ContainerHandler`, `BaseBlobHandler`): container
lifecycle operations, flat and hierarchical blob listing, service
properties get/set, and the cross-account copy-source authorizer.

Handlers are modelled as pure functions.  Every interaction with an
external collaborator (the metadata store, the etag generator, the
HTTP transport) is reified: the values a handler would receive from a
collaborator are parameters, and the values it would send are returned
as explicit records, so theorems can speak about both the store call
and the wire response of one handler invocation.
-/

/-- JS `x || d` defaulting for an optional number (`0` is falsy). -/
def jsOrNat : Option Nat → Nat → Nat
  | none, d => d
  | some n, d => if n = 0 then d else n

/-- JS `x || d` defaulting for an optional string (`""` is falsy).
Strings that are manipulated character-wise are lists of characters. -/
def jsOrStr : Option (List Char) → List Char → List Char
  | none, d => d
  | some s, d => if s = [] then d else s

inductive LeaseStatusType where
  | locked
  | unlocked
deriving DecidableEq

inductive LeaseStateType where
  | available
  | leased
  | expired
  | breaking
  | broken
deriving DecidableEq

inductive PublicAccessType where
  | container
  | blob
deriving DecidableEq

/-- Container properties record handed to `metadataStore.createContainer`. -/
structure ContainerProperties where
  etag : String
  lastModified : Nat
  leaseStatus : LeaseStatusType
  leaseState : LeaseStateType
  publicAccess : Option PublicAccessType
  hasImmutabilityPolicy : Bool
  hasLegalHold : Bool
deriving DecidableEq

/-- Arguments of the `metadataStore.createContainer` call issued by
`ContainerHandler.create`. -/
structure ContainerCreateStoreArgs where
  accountName : String
  name : String
  metadata : Option (List (String × String))
  properties : ContainerProperties
deriving DecidableEq

/-- Wire response of `ContainerHandler.create`. -/
structure ContainerCreateResponse where
  eTag : String
  lastModified : Nat
  statusCode : Nat
deriving DecidableEq

namespace ContainerHandler

/-- `ContainerHandler.create`: `etag` is the value returned by the one
`newEtag()` call the handler makes, `startTime` is `blobCtx.startTime`. -/
def create (accountName containerName : String) (startTime : Nat) (etag : String)
    (metadata : Option (List (String × String))) (access : Option PublicAccessType) :
    ContainerCreateStoreArgs × ContainerCreateResponse :=
  ({ accountName := accountName
     name := containerName
     metadata := metadata
     properties :=
       { etag := etag
         lastModified := startTime
         leaseStatus := LeaseStatusType.unlocked
         leaseState := LeaseStateType.available
         publicAccess := access
         hasImmutabilityPolicy := false
         hasLegalHold := false } },
   { eTag := etag, lastModified := startTime, statusCode := 201 })

end ContainerHandler

/-- Arguments of the `metadataStore.setContainerMetadata` call. -/
structure SetContainerMetadataStoreArgs where
  accountName : String
  containerName : String
  date : Nat
  eTag : String
  metadata : Option (List (String × String))
deriving DecidableEq

/-- Wire response of `ContainerHandler.setMetadata`. -/
structure ContainerSetMetadataResponse where
  date : Nat
  eTag : String
  lastModified : Nat
  statusCode : Nat
deriving DecidableEq

namespace ContainerHandler

/-- `ContainerHandler.setMetadata`. -/
def setMetadata (accountName containerName : String) (startTime : Nat) (etag : String)
    (metadata : Option (List (String × String))) :
    SetContainerMetadataStoreArgs × ContainerSetMetadataResponse :=
  ({ accountName := accountName
     containerName := containerName
     date := startTime
     eTag := etag
     metadata := metadata },
   { date := startTime, eTag := etag, lastModified := startTime, statusCode := 200 })

end ContainerHandler

/-- A signed identifier of a container ACL. -/
structure SignedIdentifier where
  id : String
  start : Option String
  expiry : Option String
  permission : Option String
deriving DecidableEq

/-- The `setAclModel` record handed to `metadataStore.setContainerACL`. -/
structure SetContainerAclStoreArgs where
  accountName : String
  containerName : String
  lastModified : Nat
  etag : String
  publicAccess : Option PublicAccessType
  containerAcl : Option (List SignedIdentifier)
  leaseAccessConditions : Option String
deriving DecidableEq

/-- Wire response of `ContainerHandler.setAccessPolicy`. -/
structure ContainerSetAccessPolicyResponse where
  date : Nat
  eTag : String
  lastModified : Nat
  statusCode : Nat
deriving DecidableEq

namespace ContainerHandler

/-- `ContainerHandler.setAccessPolicy`. -/
def setAccessPolicy (accountName containerName : String) (startTime : Nat) (etag : String)
    (access : Option PublicAccessType) (containerAcl : Option (List SignedIdentifier))
    (leaseAccessConditions : Option String) :
    SetContainerAclStoreArgs × ContainerSetAccessPolicyResponse :=
  ({ accountName := accountName
     containerName := containerName
     lastModified := startTime
     etag := etag
     publicAccess := access
     containerAcl := containerAcl
     leaseAccessConditions := leaseAccessConditions },
   { date := startTime, eTag := etag, lastModified := startTime, statusCode := 200 })

end ContainerHandler

/-- An error value thrown by a handler: either a typed storage error built
by `StorageErrorFactory` (serialized with a machine-readable error code),
or a plain JavaScript `Error` (surfacing as a generic failure).  The
`notImplemented` constructor is the typed `NotImplemented` storage error
of the spec's error taxonomy. -/
inductive ThrownError where
  | cannotVerifyCopySource (statusCode : Nat) (message : String)
  | invalidHeaderValue (headerName : String) (headerValue : String)
  | notImplemented
  | jsError (message : String)
deriving DecidableEq

namespace ServiceHandler

end ServiceHandler

/-- A parsed copy-source URL as produced by `new URL(copySource)`; only the
`host` component is inspected by the authorizer. -/
structure ParsedUrl where
  host : String
deriving DecidableEq

/-- The relevant parts of a probe response as seen by the authorizer: the
transport status code, the `Content-Type` response header, and the `Message`
field the XML parser extracts from the body (`none` when the body has no
such field). -/
structure ProbeResponse where
  status : Nat
  contentType : Option String
  xmlMessage : Option String
deriving DecidableEq

/-- `Message.replace(/\n+/gm, "")`: delete every newline character. -/
def stripNewlines (s : String) : String :=
  String.mk (s.data.filter (fun c => c ≠ '\n'))

/-- The fallback failure message used when the probe body yields no
`Message` field. -/
def genericCopySourceMessage : String :=
  "Could not verify the copy source within the specified time."

/-- The failure message computed for a non-200/404 probe response: the
body's `Message` with newlines stripped when the response declares an XML
content type and carries a `Message` field, else the generic message. -/
def copySourceErrorMessage (resp : ProbeResponse) : String :=
  if resp.contentType = some "application/xml" then
    match resp.xmlMessage with
    | some m => stripNewlines m
    | none => genericCopySourceMessage
  else genericCopySourceMessage

namespace BaseBlobHandler

/-- `BaseBlobHandler.NewUriFromCopySource`: `parsed` is the outcome of the
external `new URL(copySource)` call (`none` when the constructor throws). -/
def NewUriFromCopySource (parsed : Option ParsedUrl) (copySource : String) :
    Except ThrownError ParsedUrl :=
  match parsed with
  | some url => Except.ok url
  | none =>
      Except.error (ThrownError.invalidHeaderValue "x-ms-copy-source" copySource)

end BaseBlobHandler

/-- Outcome of the pre-probe stage of `validateCopySource`: either a typed
failure thrown before any network traffic, or the decision to issue the
`comp=metadata` probe against the parsed source URL. -/
inductive PreProbeOutcome where
  | failed (e : ThrownError)
  | probeIssued (url : ParsedUrl)
deriving DecidableEq

namespace BaseBlobHandler

/-- The stage of `BaseBlobHandler.validateCopySource` that runs before the
network probe: parse the copy source, compare its host with the request's
`Host` header, and only on a match proceed to issue the probe. -/
def validateCopySourcePreProbe (parsed : Option ParsedUrl) (copySource : String)
    (hostHeader : Option String) : PreProbeOutcome :=
  let currentServer := hostHeader.getD ""
  match NewUriFromCopySource parsed copySource with
  | Except.error e => PreProbeOutcome.failed e
  | Except.ok url =>
      if currentServer ≠ url.host then
        PreProbeOutcome.failed
          (ThrownError.cannotVerifyCopySource 404 "The specified resource does not exist")
      else
        PreProbeOutcome.probeIssued url

/-- The stage of `BaseBlobHandler.validateCopySource` that classifies the
`comp=metadata` probe response (the transport is configured with
`validateStatus: () => true`, so every status code reaches this
classification rather than raising a transport exception). -/
def validateCopySourceClassify (resp : ProbeResponse) : Except ThrownError Unit :=
  if resp.status = 200 then
    Except.ok ()
  else if resp.status = 404 then
    Except.error
      (ThrownError.cannotVerifyCopySource resp.status "The specified resource does not exist")
  else
    Except.error
      (ThrownError.cannotVerifyCopySource resp.status (copySourceErrorMessage resp))

/-- `BaseBlobHandler.getCopySourceContent`: classification of the content
fetch response (2xx succeeds and returns the stream, otherwise the same
classification as the probe). -/
def getCopySourceContentClassify (resp : ProbeResponse) : Except ThrownError Unit :=
  if 200 ≤ resp.status ∧ resp.status < 300 then
    Except.ok ()
  else if resp.status = 404 then
    Except.error
      (ThrownError.cannotVerifyCopySource resp.status "The specified resource does not exist")
  else
    Except.error
      (ThrownError.cannotVerifyCopySource resp.status (copySourceErrorMessage resp))

end BaseBlobHandler

structure RetentionPolicy where
  enabled : Bool
deriving DecidableEq

structure MetricsProperties where
  enabled : Bool
  retentionPolicy : RetentionPolicy
  version : String
deriving DecidableEq

structure LoggingProperties where
  deleteProperty : Bool
  read : Bool
  retentionPolicy : RetentionPolicy
  version : String
  write : Bool
deriving DecidableEq

structure StaticWebsite where
  enabled : Bool
deriving DecidableEq

/-- A CORS rule; its contents are never inspected by the handlers. -/
structure CorsRule where
  allowedOrigins : String
deriving DecidableEq

/-- `Models.StorageServiceProperties`: every field is optional on the wire. -/
structure StorageServiceProperties where
  cors : Option (List CorsRule)
  defaultServiceVersion : Option String
  hourMetrics : Option MetricsProperties
  logging : Option LoggingProperties
  minuteMetrics : Option MetricsProperties
  staticWebsite : Option StaticWebsite
deriving DecidableEq

namespace ServiceHandler

/-- `ServiceHandler.setProperties`: `parsedBodyKeys` are the top-level
property names of `parseXML(request.getBody() || "")`; the handler forces
`cors` to unset when the raw body has neither a `cors` nor a `Cors`
property, then passes the (possibly adjusted) properties to
`metadataStore.setServiceProperties` and answers 202.  Returns the
properties handed to the store together with the response status code. -/
def setProperties (storageServiceProperties : StorageServiceProperties)
    (parsedBodyKeys : List String) : StorageServiceProperties × Nat :=
  let adjusted :=
    if ¬ parsedBodyKeys.contains "cors" ∧ ¬ parsedBodyKeys.contains "Cors" then
      { storageServiceProperties with cors := none }
    else
      storageServiceProperties
  (adjusted, 202)

end ServiceHandler

/-- Modelled from the spec: the metadata store's `setServiceProperties`
(the store implementation is not among the given sources).  Per §4.5 and
§8 of the spec, a field left unset by the handler preserves the previously
stored value ("no change"), while a set field overwrites it (so an
explicitly empty `cors` list clears CORS). -/
def storeSetServiceProperties (prev : Option StorageServiceProperties)
    (incoming : StorageServiceProperties) : StorageServiceProperties :=
  match prev with
  | none => incoming
  | some old =>
      { cors := incoming.cors.elim old.cors some
        defaultServiceVersion := incoming.defaultServiceVersion.elim old.defaultServiceVersion some
        hourMetrics := incoming.hourMetrics.elim old.hourMetrics some
        logging := incoming.logging.elim old.logging some
        minuteMetrics := incoming.minuteMetrics.elim old.minuteMetrics some
        staticWebsite := incoming.staticWebsite.elim old.staticWebsite some }

namespace ServiceHandler

end ServiceHandler

/-- JS `parseInt(s, 10)`: skip leading whitespace, read an optional sign
and then a longest prefix of decimal digits; `none` models `NaN` (no
digits at all). -/
def parseIntBase10 (s : List Char) : Option Int :=
  let s1 := s.dropWhile (fun c => c = ' ' ∨ c = '\t' ∨ c = '\n' ∨ c = '\r')
  let signed : Int × List Char :=
    match s1 with
    | '-' :: rest => (-1, rest)
    | '+' :: rest => (1, rest)
    | _ => (1, s1)
  let digits := signed.2.takeWhile (fun c => '0' ≤ c ∧ c ≤ '9')
  if digits = [] then none
  else some (signed.1 * (digits.foldl (fun acc c => acc * 10 + (c.toNat - '0'.toNat)) 0 : Nat))

/-- A container item as returned by `metadataStore.listContainers`; its
contents are passed through unchanged. -/
structure ContainerItem where
  name : List Char
deriving DecidableEq

/-- Arguments of the `metadataStore.listContainers` call: the marker is a
parsed integer offset (`none` models the `NaN` a non-numeric marker
parses to). -/
structure ListContainersStoreQuery where
  accountName : String
  prefixFilter : List Char
  maxresults : Nat
  marker : Option Int
deriving DecidableEq

/-- Wire response of `ServiceHandler.listContainersSegment` (context-only
fields such as `serviceEndpoint` and `requestId` are omitted). -/
structure ListContainersResponse where
  containerItems : List ContainerItem
  maxResults : Nat
  nextMarker : List Char
  prefixFilter : List Char
  statusCode : Nat
deriving DecidableEq

namespace ServiceHandler

/-- `ServiceHandler.listContainersSegment`: defaults `maxresults` to 2000
and the prefix to `""`, parses the marker as a base-10 integer (missing or
empty marker parses `"0"`), queries the store, and echoes the store's
items and next marker with status 200. -/
def listContainersSegment (accountName : String) (maxresults0 : Option Nat)
    (marker0 : Option (List Char)) (prefix0 : Option (List Char))
    (storeContainers : List ContainerItem) (storeNextMarker : Option (List Char)) :
    ListContainersStoreQuery × ListContainersResponse :=
  let maxresults := jsOrNat maxresults0 2000
  let prefixFilter := jsOrStr prefix0 []
  let marker := parseIntBase10 (jsOrStr marker0 ['0'])
  ({ accountName := accountName
     prefixFilter := prefixFilter
     maxresults := maxresults
     marker := marker },
   { containerItems := storeContainers
     maxResults := maxresults
     nextMarker := jsOrStr storeNextMarker []
     prefixFilter := prefixFilter
     statusCode := 200 })

end ServiceHandler

/-- `Models.ListBlobsIncludeItem`. -/
inductive ListBlobsIncludeItem where
  | copy
  | deleted
  | metadata
  | snapshots
  | uncommittedblobs
deriving DecidableEq

/-- `options.include !== undefined && options.include.includes(Snapshots)`. -/
def computeIncludeSnapshots : Option (List ListBlobsIncludeItem) → Bool
  | none => false
  | some l => l.contains ListBlobsIncludeItem.snapshots

/-- A blob item as returned by `metadataStore.listBlobs`: its name and its
stored soft-delete flag (`none` models `undefined`). -/
structure BlobItem where
  name : List Char
  deleted : Option Bool
deriving DecidableEq

/-- `blob.deleted = blob.deleted !== true ? undefined : true`. -/
def normalizeDeleted (d : Option Bool) : Option Bool :=
  if d ≠ some true then none else some true

def setDeleted (b : BlobItem) (d : Option Bool) : BlobItem :=
  { b with deleted := d }

/-- Arguments of the `metadataStore.listBlobs` call issued by the blob
listing handlers. -/
structure ListBlobsStoreQuery where
  accountName : String
  containerName : String
  blobName : Option (List Char)
  prefixFilter : Option (List Char)
  maxresults : Option Nat
  marker : Option (List Char)
  includeSnapshots : Bool
deriving DecidableEq

/-- `needle` matches `hay` starting at position `i`. -/
def matchesAt (needle hay : List Char) (i : Nat) : Bool :=
  decide ((hay.drop i).take needle.length = needle)

/-- JS `hay.indexOf(needle, start)` for a string `hay`: the first position
at or after `start` where `needle` occurs, `none` modelling `-1`. -/
def indexOfFrom (hay needle : List Char) (start : Nat) : Option Nat :=
  (List.range (hay.length + 1)).find? (fun k => decide (start ≤ k) && matchesAt needle hay k)

/-- Wire response of `ContainerHandler.listBlobFlatSegment` (context-only
fields omitted). -/
structure ListBlobFlatResponse where
  statusCode : Nat
  prefixFilter : List Char
  marker : List Char
  maxResults : Nat
  delimiter : List Char
  blobItems : List BlobItem
  nextMarker : List Char
deriving DecidableEq

namespace ContainerHandler

/-- `ContainerHandler.listBlobFlatSegment`: passes the caller's marker and
`maxresults` through to the store unchanged (capturing the marker before
its `|| ""` defaulting), normalizes each returned blob's `deleted` flag,
and answers 200 with `maxResults` defaulted to 5000 and a constant empty
delimiter. -/
def listBlobFlatSegment (accountName containerName : String)
    (maxresults0 : Option Nat) (marker0 : Option (List Char))
    (prefix0 : Option (List Char)) (include0 : Option (List ListBlobsIncludeItem))
    (storeBlobs : List BlobItem) (storeNextMarker : Option (List Char)) :
    ListBlobsStoreQuery × ListBlobFlatResponse :=
  let marker := marker0
  let markerDefaulted := jsOrStr marker0 []
  let includeSnapshots := computeIncludeSnapshots include0
  ({ accountName := accountName
     containerName := containerName
     blobName := none
     prefixFilter := prefix0
     maxresults := maxresults0
     marker := marker
     includeSnapshots := includeSnapshots },
   { statusCode := 200
     prefixFilter := jsOrStr prefix0 []
     marker := markerDefaulted
     maxResults := jsOrNat maxresults0 5000
     delimiter := []
     blobItems := storeBlobs.map (fun b => setDeleted b (normalizeDeleted b.deleted))
     nextMarker := jsOrStr storeNextMarker [] })

end ContainerHandler

/-- `delimiter = delimiter === "" ? "/" : delimiter`. -/
def effectiveDelimiter (d : List Char) : List Char :=
  if d = [] then ['/'] else d

/-- `blobPrefixesSet.add`: a JS `Set` preserves first-insertion order and
ignores duplicates. -/
def insertUnique (seen : List (List Char)) (x : List Char) : List (List Char) :=
  if x ∈ seen then seen else seen ++ [x]

/-- One iteration of the classification loop of
`listBlobHierarchySegment`: a blob whose name has no delimiter occurrence
at or after the prefix length is pushed (with its `deleted` flag
normalized) onto the blob items, otherwise its name truncated at
`delimiterPosAfterPrefix + 1` is added to the prefix set. -/
def hierarchyStep (delim : List Char) (prefixLength : Nat)
    (acc : List BlobItem × List (List Char)) (b : BlobItem) :
    List BlobItem × List (List Char) :=
  match indexOfFrom b.name delim prefixLength with
  | none => (acc.1 ++ [setDeleted b (normalizeDeleted b.deleted)], acc.2)
  | some p => (acc.1, insertUnique acc.2 (b.name.take (p + 1)))

/-- Wire response of `ContainerHandler.listBlobHierarchySegment`
(context-only fields omitted). -/
structure ListBlobHierarchyResponse where
  statusCode : Nat
  prefixFilter : List Char
  marker : List Char
  maxResults : Nat
  delimiter : List Char
  blobItems : List BlobItem
  blobPrefixes : List (List Char)
  nextMarker : List Char
deriving DecidableEq

namespace ContainerHandler

/-- `ContainerHandler.listBlobHierarchySegment`: captures the caller's
marker before defaulting, defaults an empty delimiter to `"/"` and the
prefix to `""`, queries the store, then classifies each returned blob by
the first delimiter occurrence at or after the prefix length — blobs
without one become (normalized) blob items, the others contribute their
truncated name to a deduplicating prefix set emitted as `blobPrefixes`. -/
def listBlobHierarchySegment (delimiter0 : List Char) (accountName containerName : String)
    (maxresults0 : Option Nat) (marker0 : Option (List Char))
    (prefix0 : Option (List Char)) (include0 : Option (List ListBlobsIncludeItem))
    (storeBlobs : List BlobItem) (storeNextMarker : Option (List Char)) :
    ListBlobsStoreQuery × ListBlobHierarchyResponse :=
  let marker := marker0
  let delim := effectiveDelimiter delimiter0
  let prefixFilter := jsOrStr prefix0 []
  let markerDefaulted := jsOrStr marker0 []
  let includeSnapshots := computeIncludeSnapshots include0
  let classified := storeBlobs.foldl (hierarchyStep delim prefixFilter.length) ([], [])
  ({ accountName := accountName
     containerName := containerName
     blobName := none
     prefixFilter := some prefixFilter
     maxresults := maxresults0
     marker := marker
     includeSnapshots := includeSnapshots },
   { statusCode := 200
     prefixFilter := prefixFilter
     marker := markerDefaulted
     maxResults := jsOrNat maxresults0 5000
     delimiter := delim
     blobItems := classified.1
     blobPrefixes := classified.2
     nextMarker := jsOrStr storeNextMarker [] })

end ContainerHandler

/-! ### Lemmas about the deduplicating prefix set and the classification loop -/

theorem mem_insertUnique (seen : List (List Char)) (x y : List Char) :
    y ∈ insertUnique seen x ↔ y ∈ seen ∨ y = x := by
  unfold insertUnique
  split
  · rename_i hx
    constructor
    · exact fun h => Or.inl h
    · intro h
      rcases h with h | h
      · exact h
      · exact h ▸ hx
  · simp [List.mem_append]

theorem nodup_insertUnique (seen : List (List Char)) (x : List Char)
    (h : seen.Nodup) : (insertUnique seen x).Nodup := by
  unfold insertUnique
  split
  · exact h
  · rename_i hx
    simp [List.nodup_append, h, hx]

theorem dedupFold_nodup (l : List (List Char)) (acc : List (List Char))
    (h : acc.Nodup) : (l.foldl insertUnique acc).Nodup := by
  induction l generalizing acc with
  | nil => exact h
  | cons a t ih => exact ih _ (nodup_insertUnique _ _ h)

theorem mem_dedupFold (l : List (List Char)) (acc : List (List Char)) (y : List Char) :
    y ∈ l.foldl insertUnique acc ↔ y ∈ acc ∨ y ∈ l := by
  induction l generalizing acc with
  | nil => simp
  | cons a t ih =>
    simp only [List.foldl_cons, ih, mem_insertUnique, List.mem_cons]
    tauto

theorem hierarchyFold_fst (delim : List Char) (pl : Nat) (blobs : List BlobItem)
    (acc : List BlobItem × List (List Char)) :
    (blobs.foldl (hierarchyStep delim pl) acc).1
      = acc.1 ++ (blobs.filter (fun b => (indexOfFrom b.name delim pl).isNone)).map
          (fun b => setDeleted b (normalizeDeleted b.deleted)) := by
  induction blobs generalizing acc with
  | nil => simp
  | cons b t ih =>
    simp only [List.foldl_cons, List.filter_cons]
    cases h : indexOfFrom b.name delim pl with
    | none =>
      simp only [hierarchyStep, h, Option.isNone_none, List.map_cons]
      rw [ih]
      simp
    | some p =>
      simp only [hierarchyStep, h, Option.isNone_some]
      rw [ih]
      simp

theorem hierarchyFold_snd (delim : List Char) (pl : Nat) (blobs : List BlobItem)
    (acc : List BlobItem × List (List Char)) :
    (blobs.foldl (hierarchyStep delim pl) acc).2
      = (blobs.filterMap
          (fun b => (indexOfFrom b.name delim pl).map (fun p => b.name.take (p + 1)))).foldl
            insertUnique acc.2 := by
  induction blobs generalizing acc with
  | nil => simp
  | cons b t ih =>
    simp only [List.foldl_cons, List.filterMap_cons]
    cases h : indexOfFrom b.name delim pl with
    | none =>
      simp only [hierarchyStep, h, Option.map_none']
      rw [ih]
    | some p =>
      simp only [hierarchyStep, h, Option.map_some']
      rw [ih]
      rfl

/-! ### Claim theorems -/

/-- C1: for every hierarchical blob listing call, an empty delimiter
defaults to `"/"`; each blob returned by the store scan is classified by
the first occurrence of the delimiter at or after the prefix length: if
none occurs the blob is emitted as a blob item, otherwise the name
truncated just past position `p` (`name[0..p+1]`) becomes a virtual
prefix, all blobs sharing that virtual prefix collapse into exactly one
deduplicated `BlobPrefix` entry, and none of those blobs appears as an
individual blob item in the page. -/
theorem listBlobHierarchySegment_virtual_prefix_grouping
    (delimiter0 : List Char) (accountName containerName : String)
    (maxresults0 : Option Nat) (marker0 prefix0 : Option (List Char))
    (include0 : Option (List ListBlobsIncludeItem))
    (storeBlobs : List BlobItem) (storeNextMarker : Option (List Char))
    (delim : List Char)
    (hdelim : delim = effectiveDelimiter delimiter0)
    (r : ListBlobsStoreQuery × ListBlobHierarchyResponse)
    (hr : r = ContainerHandler.listBlobHierarchySegment delimiter0 accountName containerName
            maxresults0 marker0 prefix0 include0 storeBlobs storeNextMarker) :
    r.2.delimiter = delim ∧
    (delimiter0 = [] → delim = ['/']) ∧
    r.2.blobItems
      = (storeBlobs.filter
          (fun b => (indexOfFrom b.name delim (jsOrStr prefix0 []).length).isNone)).map
          (fun b => setDeleted b (normalizeDeleted b.deleted)) ∧
    (∀ b ∈ storeBlobs, ∀ p,
        indexOfFrom b.name delim (jsOrStr prefix0 []).length = some p →
        b.name.take (p + 1) ∈ r.2.blobPrefixes ∧
        ∀ item ∈ r.2.blobItems, item.name ≠ b.name) ∧
    r.2.blobPrefixes.Nodup ∧
    (∀ q ∈ r.2.blobPrefixes, ∃ b ∈ storeBlobs, ∃ p,
        indexOfFrom b.name delim (jsOrStr prefix0 []).length = some p ∧
        q = b.name.take (p + 1)) := by
  subst hr hdelim
  have hitems :
      (ContainerHandler.listBlobHierarchySegment delimiter0 accountName containerName
          maxresults0 marker0 prefix0 include0 storeBlobs storeNextMarker).2.blobItems
        = (storeBlobs.filter
            (fun b => (indexOfFrom b.name (effectiveDelimiter delimiter0)
                (jsOrStr prefix0 []).length).isNone)).map
            (fun b => setDeleted b (normalizeDeleted b.deleted)) := by
    show (storeBlobs.foldl (hierarchyStep (effectiveDelimiter delimiter0)
        (jsOrStr prefix0 []).length) ([], [])).1 = _
    rw [hierarchyFold_fst]
    simp
  have hprefixes :
      (ContainerHandler.listBlobHierarchySegment delimiter0 accountName containerName
          maxresults0 marker0 prefix0 include0 storeBlobs storeNextMarker).2.blobPrefixes
        = (storeBlobs.filterMap
            (fun b => (indexOfFrom b.name (effectiveDelimiter delimiter0)
                (jsOrStr prefix0 []).length).map (fun p => b.name.take (p + 1)))).foldl
              insertUnique [] := by
    show (storeBlobs.foldl (hierarchyStep (effectiveDelimiter delimiter0)
        (jsOrStr prefix0 []).length) ([], [])).2 = _
    rw [hierarchyFold_snd]
  refine ⟨rfl, ?_, hitems, ?_, ?_, ?_⟩
  · intro h
    simp [effectiveDelimiter, h]
  · intro b hb p hp
    constructor
    · rw [hprefixes, mem_dedupFold]
      right
      rw [List.mem_filterMap]
      exact ⟨b, hb, by rw [hp]; rfl⟩
    · intro item hitem
      rw [hitems] at hitem
      rw [List.mem_map] at hitem
      obtain ⟨b', hb', rfl⟩ := hitem
      rw [List.mem_filter] at hb'
      simp only [setDeleted]
      intro hname
      have hnone := hb'.2
      rw [hname, hp] at hnone
      simp at hnone
  · rw [hprefixes]
    exact dedupFold_nodup _ _ (List.nodup_nil)
  · intro q hq
    rw [hprefixes, mem_dedupFold] at hq
    rcases hq with hq | hq
    · simp at hq
    · rw [List.mem_filterMap] at hq
      obtain ⟨b, hb, hfb⟩ := hq
      rw [Option.map_eq_some'] at hfb
      obtain ⟨p, hp, rfl⟩ := hfb
      exact ⟨b, hb, p, hp, rfl⟩

/-- Witness for C1: on blobs `photos/a.jpg`, `photos/b.jpg`, `readme.txt`
with empty prefix and delimiter defaulted from `""`, the virtual prefix
`photos/` is among the emitted blob prefixes. -/
theorem listBlobHierarchySegment_virtual_prefix_grouping_witness :
    "photos/".data ∈ (ContainerHandler.listBlobHierarchySegment [] "devstoreaccount1" "cont"
        none none none none
        [{ name := "photos/a.jpg".data, deleted := none },
         { name := "photos/b.jpg".data, deleted := none },
         { name := "readme.txt".data, deleted := some false }]
        none).2.blobPrefixes := by
  exact ((listBlobHierarchySegment_virtual_prefix_grouping [] "devstoreaccount1" "cont"
      none none none none
      [{ name := "photos/a.jpg".data, deleted := none },
       { name := "photos/b.jpg".data, deleted := none },
       { name := "readme.txt".data, deleted := some false }]
      none ['/'] rfl _ rfl).2.2.2.1
      { name := "photos/a.jpg".data, deleted := none } (by decide) 6 (by decide)).1

/-- C2: for every copy-source authorization probe response, the authorizer
never throws on a non-2xx transport response but classifies by status
code: 200 succeeds, 404 fails with `CannotVerifyCopySource` status 404 and
message "The specified resource does not exist", any other status fails
with `CannotVerifyCopySource` carrying that status, with the message taken
from the XML body's `Message` field (newlines stripped) when present and
the generic message otherwise; every failure of the probe and of the
content fetch is a classified `CannotVerifyCopySource`. -/
theorem validateCopySource_probe_classification (resp : ProbeResponse) :
    (resp.status = 200 → BaseBlobHandler.validateCopySourceClassify resp = Except.ok ()) ∧
    (resp.status = 404 →
        BaseBlobHandler.validateCopySourceClassify resp
          = Except.error
              (ThrownError.cannotVerifyCopySource 404 "The specified resource does not exist")) ∧
    (∀ m, resp.status ≠ 200 → resp.status ≠ 404 →
        resp.contentType = some "application/xml" → resp.xmlMessage = some m →
        BaseBlobHandler.validateCopySourceClassify resp
          = Except.error
              (ThrownError.cannotVerifyCopySource resp.status (stripNewlines m))) ∧
    (resp.status ≠ 200 → resp.status ≠ 404 →
        (resp.contentType ≠ some "application/xml" ∨ resp.xmlMessage = none) →
        BaseBlobHandler.validateCopySourceClassify resp
          = Except.error
              (ThrownError.cannotVerifyCopySource resp.status genericCopySourceMessage)) ∧
    (∀ e, BaseBlobHandler.validateCopySourceClassify resp = Except.error e →
        ∃ sc msg, e = ThrownError.cannotVerifyCopySource sc msg) ∧
    (∀ e, BaseBlobHandler.getCopySourceContentClassify resp = Except.error e →
        ∃ sc msg, e = ThrownError.cannotVerifyCopySource sc msg) := by
  refine ⟨?_, ?_, ?_, ?_, ?_, ?_⟩
  · intro h
    simp [BaseBlobHandler.validateCopySourceClassify, h]
  · intro h
    simp [BaseBlobHandler.validateCopySourceClassify, h]
  · intro m h1 h2 hct hm
    simp [BaseBlobHandler.validateCopySourceClassify, h1, h2, copySourceErrorMessage, hct, hm]
  · intro h1 h2 hdisj
    rcases hdisj with hct | hm
    · simp [BaseBlobHandler.validateCopySourceClassify, h1, h2, copySourceErrorMessage, hct]
    · simp only [BaseBlobHandler.validateCopySourceClassify, if_neg h1, if_neg h2,
        copySourceErrorMessage, hm]
      split <;> rfl
  · intro e he
    unfold BaseBlobHandler.validateCopySourceClassify at he
    split_ifs at he <;>
      (injection he with h; subst h; exact ⟨_, _, rfl⟩)
  · intro e he
    unfold BaseBlobHandler.getCopySourceContentClassify at he
    split_ifs at he <;>
      (injection he with h; subst h; exact ⟨_, _, rfl⟩)

/-- Witness for C2: a 403 probe response with an XML body carrying
`Message: "Auth\nfailed"` is classified as `CannotVerifyCopySource` with
status 403 and the newline-stripped message. -/
theorem validateCopySource_probe_classification_witness :
    BaseBlobHandler.validateCopySourceClassify
        { status := 403, contentType := some "application/xml", xmlMessage := some "Auth\nfailed" }
      = Except.error (ThrownError.cannotVerifyCopySource 403 "Authfailed") := by
  exact (validateCopySource_probe_classification
      { status := 403, contentType := some "application/xml", xmlMessage := some "Auth\nfailed" }).2.2.1
    "Auth\nfailed" (by decide) (by decide) rfl rfl

/-- C3: a copy source whose parsed host differs from the request's `Host`
header fails with `CannotVerifyCopySource` status 404 and message "The
specified resource does not exist" before any probe is issued, and an
unparsable copy source fails with `InvalidHeaderValue` citing the
`x-ms-copy-source` header and its value. -/
theorem validateCopySource_preprobe_failures
    (parsed : Option ParsedUrl) (copySource : String) (hostHeader : Option String) :
    (∀ url, parsed = some url → hostHeader.getD "" ≠ url.host →
        BaseBlobHandler.validateCopySourcePreProbe parsed copySource hostHeader
          = PreProbeOutcome.failed
              (ThrownError.cannotVerifyCopySource 404 "The specified resource does not exist")) ∧
    (parsed = none →
        BaseBlobHandler.validateCopySourcePreProbe parsed copySource hostHeader
          = PreProbeOutcome.failed
              (ThrownError.invalidHeaderValue "x-ms-copy-source" copySource)) := by
  constructor
  · intro url hp hh
    subst hp
    simp [BaseBlobHandler.validateCopySourcePreProbe, BaseBlobHandler.NewUriFromCopySource, hh]
  · intro hp
    subst hp
    simp [BaseBlobHandler.validateCopySourcePreProbe, BaseBlobHandler.NewUriFromCopySource]

/-- Witness for C3: a copy source on `otherhost:10000` probed from a
request whose `Host` is `127.0.0.1:10000` fails with status 404 without a
probe being issued. -/
theorem validateCopySource_preprobe_failures_witness :
    BaseBlobHandler.validateCopySourcePreProbe (some { host := "otherhost:10000" })
        "http://otherhost:10000/devstoreaccount1/cont/blob" (some "127.0.0.1:10000")
      = PreProbeOutcome.failed
          (ThrownError.cannotVerifyCopySource 404 "The specified resource does not exist") :=
  (validateCopySource_preprobe_failures (some { host := "otherhost:10000" })
      "http://otherhost:10000/devstoreaccount1/cont/blob" (some "127.0.0.1:10000")).1
    { host := "otherhost:10000" } rfl (by decide)

theorem setProperties_eq (props : StorageServiceProperties) (parsedBodyKeys : List String) :
    ServiceHandler.setProperties props parsedBodyKeys
      = (if ¬ parsedBodyKeys.contains "cors" ∧ ¬ parsedBodyKeys.contains "Cors" then
           { props with cors := none }
         else props, 202) := rfl

/-- C4: a setProperties body with neither a `cors` nor a `Cors` property
forces the stored `cors` to unset, preserving a previously stored CORS
configuration; a body with an explicit `cors` element stores the supplied
value, clearing CORS when it is the empty list. -/
theorem setProperties_cors_unset_vs_clear
    (props : StorageServiceProperties) (parsedBodyKeys : List String)
    (prev : StorageServiceProperties) :
    (¬ parsedBodyKeys.contains "cors" ∧ ¬ parsedBodyKeys.contains "Cors" →
        (ServiceHandler.setProperties props parsedBodyKeys).1.cors = none ∧
        (storeSetServiceProperties (some prev)
            (ServiceHandler.setProperties props parsedBodyKeys).1).cors = prev.cors) ∧
    (parsedBodyKeys.contains "cors" ∨ parsedBodyKeys.contains "Cors" →
        (ServiceHandler.setProperties props parsedBodyKeys).1.cors = props.cors ∧
        (props.cors = some [] →
            (storeSetServiceProperties (some prev)
                (ServiceHandler.setProperties props parsedBodyKeys).1).cors = some [])) ∧
    (ServiceHandler.setProperties props parsedBodyKeys).2 = 202 := by
  refine ⟨?_, ?_, rfl⟩
  · intro h
    rw [setProperties_eq, if_pos h]
    exact ⟨rfl, rfl⟩
  · intro h
    have hcond : ¬(¬ parsedBodyKeys.contains "cors" ∧ ¬ parsedBodyKeys.contains "Cors") := by
      tauto
    rw [setProperties_eq, if_neg hcond]
    refine ⟨rfl, ?_⟩
    intro hc
    simp [storeSetServiceProperties, hc]

/-- Witness for C4: with a previously stored one-rule CORS configuration,
a body without `cors` keys leaves it intact, while a body carrying an
explicitly empty `cors` clears it. -/
theorem setProperties_cors_unset_vs_clear_witness :
    (storeSetServiceProperties
        (some { cors := some [{ allowedOrigins := "*" }], defaultServiceVersion := none,
                hourMetrics := none, logging := none, minuteMetrics := none,
                staticWebsite := none })
        (ServiceHandler.setProperties
          { cors := some [], defaultServiceVersion := none, hourMetrics := none,
            logging := none, minuteMetrics := none, staticWebsite := none }
          ["logging"]).1).cors
      = some [{ allowedOrigins := "*" }] := by
  exact ((setProperties_cors_unset_vs_clear
      { cors := some [], defaultServiceVersion := none, hourMetrics := none,
        logging := none, minuteMetrics := none, staticWebsite := none }
      ["logging"]
      { cors := some [{ allowedOrigins := "*" }], defaultServiceVersion := none,
        hourMetrics := none, logging := none, minuteMetrics := none,
        staticWebsite := none }).1 (by decide)).2

theorem normalizeDeleted_ok (d : Option Bool) :
    normalizeDeleted d ≠ some false ∧
      (normalizeDeleted d = none ∨ normalizeDeleted d = some true) := by
  unfold normalizeDeleted
  split <;> simp

/-- C6: every blob item emitted by flat or hierarchical blob listing has
its `deleted` flag normalized at the output boundary: it is `undefined`
unless the stored value is exactly `true`, and is never emitted as
`false`. -/
theorem listing_deleted_flag_normalized
    (accountName containerName : String) (delimiter0 : List Char)
    (maxresults0 : Option Nat) (marker0 prefix0 : Option (List Char))
    (include0 : Option (List ListBlobsIncludeItem))
    (storeBlobs : List BlobItem) (storeNextMarker : Option (List Char)) :
    (∀ item ∈ (ContainerHandler.listBlobFlatSegment accountName containerName maxresults0
        marker0 prefix0 include0 storeBlobs storeNextMarker).2.blobItems,
        item.deleted ≠ some false ∧ (item.deleted = none ∨ item.deleted = some true)) ∧
    (∀ item ∈ (ContainerHandler.listBlobHierarchySegment delimiter0 accountName containerName
        maxresults0 marker0 prefix0 include0 storeBlobs storeNextMarker).2.blobItems,
        item.deleted ≠ some false ∧ (item.deleted = none ∨ item.deleted = some true)) := by
  constructor
  · intro item hitem
    have hflat :
        (ContainerHandler.listBlobFlatSegment accountName containerName maxresults0
            marker0 prefix0 include0 storeBlobs storeNextMarker).2.blobItems
          = storeBlobs.map (fun b => setDeleted b (normalizeDeleted b.deleted)) := rfl
    rw [hflat, List.mem_map] at hitem
    obtain ⟨b, hb, rfl⟩ := hitem
    exact normalizeDeleted_ok b.deleted
  · intro item hitem
    have hhier :
        (ContainerHandler.listBlobHierarchySegment delimiter0 accountName containerName
            maxresults0 marker0 prefix0 include0 storeBlobs storeNextMarker).2.blobItems
          = (storeBlobs.foldl (hierarchyStep (effectiveDelimiter delimiter0)
              (jsOrStr prefix0 []).length) ([], [])).1 := rfl
    rw [hhier, hierarchyFold_fst] at hitem
    simp only [List.nil_append, List.mem_map] at hitem
    obtain ⟨b, hb, rfl⟩ := hitem
    exact normalizeDeleted_ok b.deleted

/-- Witness for C6: a blob stored with `deleted = false` is emitted by the
flat listing with `deleted` cleared to `undefined`, not `false`. -/
theorem listing_deleted_flag_normalized_witness :
    ({ name := "a".data, deleted := none } : BlobItem).deleted ≠ some false ∧
      (({ name := "a".data, deleted := none } : BlobItem).deleted = none ∨
       ({ name := "a".data, deleted := none } : BlobItem).deleted = some true) :=
  (listing_deleted_flag_normalized "devstoreaccount1" "cont" [] none none none none
      [{ name := "a".data, deleted := some false }] none).1
    { name := "a".data, deleted := none } (by decide)

/-- C7: container listing defaults a missing `maxresults` to 2000 and
parses the marker as a base-10 integer defaulting to 0 before the store is
queried; flat and hierarchical blob listing default the page size to 5000
when the caller supplies none and pass the name-based marker through to
the store unchanged. -/
theorem listing_defaults_and_markers
    (accountName containerName : String) (delimiter0 : List Char)
    (maxresults0 : Option Nat) (marker0 prefix0 : Option (List Char))
    (include0 : Option (List ListBlobsIncludeItem))
    (storeContainers : List ContainerItem) (storeBlobs : List BlobItem)
    (storeNextMarker : Option (List Char)) :
    ((ServiceHandler.listContainersSegment accountName maxresults0 marker0 prefix0
        storeContainers storeNextMarker).1.marker
      = parseIntBase10 (jsOrStr marker0 ['0'])) ∧
    (marker0 = none →
        (ServiceHandler.listContainersSegment accountName maxresults0 marker0 prefix0
            storeContainers storeNextMarker).1.marker = some 0) ∧
    (maxresults0 = none →
        (ServiceHandler.listContainersSegment accountName maxresults0 marker0 prefix0
            storeContainers storeNextMarker).1.maxresults = 2000 ∧
        (ServiceHandler.listContainersSegment accountName maxresults0 marker0 prefix0
            storeContainers storeNextMarker).2.maxResults = 2000) ∧
    (maxresults0 = none →
        (ContainerHandler.listBlobFlatSegment accountName containerName maxresults0
            marker0 prefix0 include0 storeBlobs storeNextMarker).2.maxResults = 5000 ∧
        (ContainerHandler.listBlobHierarchySegment delimiter0 accountName containerName
            maxresults0 marker0 prefix0 include0 storeBlobs storeNextMarker).2.maxResults
          = 5000) ∧
    ((ContainerHandler.listBlobFlatSegment accountName containerName maxresults0
        marker0 prefix0 include0 storeBlobs storeNextMarker).1.marker = marker0) ∧
    ((ContainerHandler.listBlobHierarchySegment delimiter0 accountName containerName
        maxresults0 marker0 prefix0 include0 storeBlobs storeNextMarker).1.marker
      = marker0) := by
  refine ⟨rfl, ?_, ?_, ?_, rfl, rfl⟩
  · intro h
    subst h
    rfl
  · intro h
    subst h
    exact ⟨rfl, rfl⟩
  · intro h
    subst h
    exact ⟨rfl, rfl⟩

/-- Witness for C7: with no `maxresults` and no marker supplied, the
container listing queries the store with `maxresults = 2000` and marker
`0`, and the blob listings answer `maxResults = 5000`. -/
theorem listing_defaults_and_markers_witness :
    (ServiceHandler.listContainersSegment "devstoreaccount1" none none none [] none).1.marker
      = some 0 ∧
    (ServiceHandler.listContainersSegment "devstoreaccount1" none none none [] none).1.maxresults
      = 2000 ∧
    (ContainerHandler.listBlobFlatSegment "devstoreaccount1" "cont" none none none none
        [] none).2.maxResults = 5000 :=
  ⟨(listing_defaults_and_markers "devstoreaccount1" "cont" [] none none none none [] [] none).2.1
      rfl,
   ((listing_defaults_and_markers "devstoreaccount1" "cont" [] none none none none [] [] none).2.2.1
      rfl).1,
   ((listing_defaults_and_markers "devstoreaccount1" "cont" [] none none none none [] [] none).2.2.2.1
      rfl).1⟩

/-- C8: each of the container mutations create, setMetadata and
setAccessPolicy passes the freshly generated etag and the request start
time to the metadata store and answers with exactly that same etag and
lastModified pair. -/
theorem container_mutations_etag_lastModified
    (accountName containerName : String) (startTime : Nat) (etag : String)
    (metadata : Option (List (String × String))) (access : Option PublicAccessType)
    (containerAcl : Option (List SignedIdentifier)) (leaseAccessConditions : Option String) :
    ((ContainerHandler.create accountName containerName startTime etag metadata
        access).1.properties.etag = etag ∧
     (ContainerHandler.create accountName containerName startTime etag metadata
        access).1.properties.lastModified = startTime ∧
     (ContainerHandler.create accountName containerName startTime etag metadata
        access).2.eTag = etag ∧
     (ContainerHandler.create accountName containerName startTime etag metadata
        access).2.lastModified = startTime) ∧
    ((ContainerHandler.setMetadata accountName containerName startTime etag
        metadata).1.eTag = etag ∧
     (ContainerHandler.setMetadata accountName containerName startTime etag
        metadata).1.date = startTime ∧
     (ContainerHandler.setMetadata accountName containerName startTime etag
        metadata).2.eTag = etag ∧
     (ContainerHandler.setMetadata accountName containerName startTime etag
        metadata).2.lastModified = startTime) ∧
    ((ContainerHandler.setAccessPolicy accountName containerName startTime etag access
        containerAcl leaseAccessConditions).1.etag = etag ∧
     (ContainerHandler.setAccessPolicy accountName containerName startTime etag access
        containerAcl leaseAccessConditions).1.lastModified = startTime ∧
     (ContainerHandler.setAccessPolicy accountName containerName startTime etag access
        containerAcl leaseAccessConditions).2.eTag = etag ∧
     (ContainerHandler.setAccessPolicy accountName containerName startTime etag access
        containerAcl leaseAccessConditions).2.lastModified = startTime) :=
  ⟨⟨rfl, rfl, rfl, rfl⟩, ⟨rfl, rfl, rfl, rfl⟩, ⟨rfl, rfl, rfl, rfl⟩⟩

/-- C10: a successful container create hands the store a container with
leaseStatus Unlocked, leaseState Available, hasImmutabilityPolicy false
and hasLegalHold false, and answers 201 with the newly generated etag and
the request start time as lastModified. -/
theorem create_initializes_container_state
    (accountName containerName : String) (startTime : Nat) (etag : String)
    (metadata : Option (List (String × String))) (access : Option PublicAccessType) :
    (ContainerHandler.create accountName containerName startTime etag metadata
        access).1.properties.leaseStatus = LeaseStatusType.unlocked ∧
    (ContainerHandler.create accountName containerName startTime etag metadata
        access).1.properties.leaseState = LeaseStateType.available ∧
    (ContainerHandler.create accountName containerName startTime etag metadata
        access).1.properties.hasImmutabilityPolicy = false ∧
    (ContainerHandler.create accountName containerName startTime etag metadata
        access).1.properties.hasLegalHold = false ∧
    (ContainerHandler.create accountName containerName startTime etag metadata
        access).2.statusCode = 201 ∧
    (ContainerHandler.create accountName containerName startTime etag metadata
        access).2.eTag = etag ∧
    (ContainerHandler.create accountName containerName startTime etag metadata
        access).2.lastModified = startTime :=
  ⟨rfl, rfl, rfl, rfl, rfl, rfl, rfl⟩
